import Mathlib

/-!
Shallow embedding of the septic_api home-data pipeline
(src/services/home_data_svc/base.py, src/common/mappings.py).

Python dictionaries are modelled as association lists with string keys;
Python exceptions are modelled with an explicit error type and `Except`.
-/

set_option autoImplicit false

namespace SepticApi

/-- Values stored in the pipeline's dictionaries: provider payload values are
JSON strings, derived fields are booleans. -/
inductive PyVal where
  | s (v : String)
  | b (v : Bool)
deriving DecidableEq, Repr

/-- Python equality between a dictionary value and a string literal:
a string matches by content, a boolean never equals a string. -/
def pyEqStr : PyVal → String → Bool
  | .s v, t => v == t
  | .b _, _ => false

/-- The exceptions the pipeline can raise.  `fetchError` stands for
requests' HTTPError / connection errors; `schemaDriftError` is the KeyError
raised when the structural container is missing in parse_home_data (the
spec's taxonomy names this SchemaDriftError); `valueValidationError` is the
ValueError raised by the HouseCanarySewerPropertyDetails enum constructor
(the spec's ValueValidationError); `keyError` is any other Python KeyError,
such as a missing dictionary key inside a constructed-field method. -/
inductive PyError where
  | fetchError
  | schemaDriftError (key : String)
  | valueValidationError (value : PyVal)
  | keyError (key : String)
deriving DecidableEq, Repr

/-- A Python dict with string keys, as an association list. -/
abbrev Dict := List (String × PyVal)

/-- Lookup of a key in a dict (first matching entry). -/
def dlookup {α : Type} : List (String × α) → String → Option α
  | [], _ => none
  | (k, v) :: rest, key => if k = key then some v else dlookup rest key

/-- Assignment d[k] = v on a dict: replaces the value of an existing key in
place, otherwise appends the new entry, as CPython dicts do. -/
def dinsert {α : Type} (d : List (String × α)) (k : String) (v : α) :
    List (String × α) :=
  if d.any (fun kv => kv.1 = k) then
    d.map (fun kv => if kv.1 = k then (k, v) else kv)
  else
    d ++ [(k, v)]

/-- Python d1.update(d2): every entry of d2 is assigned into d1 in order. -/
def dictUpdate {α : Type} (d1 d2 : List (String × α)) : List (String × α) :=
  d2.foldl (fun acc kv => dinsert acc kv.1 kv.2) d1

/-! ### Generic mappings (src/common/mappings.py) -/

/-- GenericSewerMappings: the canonical values of the sewer field, as the
strings the Python enum members carry. -/
def genericSewerMappingsValues : List String :=
  ["septic", "municipal", "storm", "type_unknown", "existence_unknown", "no_sewer"]

/-! ### House Canary vocabulary (src/services/home_data_svc/base.py) -/

/-- HouseCanarySewerPropertyDetails: the values of the provider's declared
value universe for the sewer field. -/
def houseCanarySewerPropertyDetailsValues : List String :=
  ["Municipal", "Septic", "Storm", "None", "Yes"]

/-- HouseCanarySewerPropertyDetails(value): the enum constructor succeeds
exactly on members of the declared universe; a boolean is never a member. -/
def validateSewer : PyVal → Bool
  | .s v => houseCanarySewerPropertyDetailsValues.contains v
  | .b _ => false

/-- HouseCanaryFields[name]: the enum lookup by member name.  Its value is
the field's validator; a missing name raises KeyError (returned as none). -/
def houseCanaryFields (name : String) : Option (PyVal → Bool) :=
  if name = "sewer" then some validateSewer else none

/-- house_canary_field_to_generic, at the level of names: maps the provider
field name to the generic field name (HouseCanaryFields.sewer.name to
GenericFieldsToMappings.sewer.name). -/
def house_canary_field_to_generic : List (String × String) :=
  [("sewer", "sewer")]

/-- house_canary_sewer_to_generic: provider sewer value to generic sewer
value. -/
def house_canary_sewer_to_generic : List (String × String) :=
  [ ("Municipal", "municipal")
  , ("Septic", "septic")
  , ("Storm", "storm")
  , ("None", "no_sewer")
  , ("Yes", "type_unknown") ]

/-- house_canary_sewer_to_generic.get(value, ...): dictionary lookup of a
payload value; a boolean key never matches the string keys. -/
def sewerLookup : PyVal → Option String
  | .s v => dlookup house_canary_sewer_to_generic v
  | .b _ => none

/-! ### The raw payload shape the House Canary adapter reads -/

/-- The result object under payload['property/details']['result']:
optional 'property' and 'assessment' objects (result.get defaults a missing
one to the empty dict). -/
structure ResultData where
  property : Option Dict
  assessment : Option Dict
deriving DecidableEq, Repr

/-- The object under payload['property/details']; its 'result' member may be
missing. -/
structure ResultWrapper where
  result : Option ResultData
deriving DecidableEq, Repr

/-- A fetched JSON payload; its 'property/details' member may be missing. -/
structure RawPayload where
  propertyDetails : Option ResultWrapper
deriving DecidableEq, Repr

/-- An HTTP response from the provider, already JSON-decoded. -/
structure HttpResponse where
  status_code : Nat
  body : RawPayload
deriving DecidableEq, Repr

/-! ### HomeDataSvc (abstract pipeline) and HouseCanaryHomeDataSvc -/

/-- The per-request service state: constructor arguments plus the `data`
attribute set by build_home_data. -/
structure HomeDataSvc where
  expected_fields : List String
  address : String
  zip_code : String
  data : Option Dict := none
deriving DecidableEq, Repr

/-- HouseCanaryHomeDataSvc.fields_to_retrieve = [HouseCanaryFields.sewer.name]. -/
def fields_to_retrieve : List String := ["sewer"]

/-- HomeDataSvc.constructed_fields. -/
def constructed_fields : List String := ["has_septic"]

/-- HouseCanaryHomeDataSvc.fetch_home_data: requests.get may fail with a
connection error or timeout (the `Except.error` input); otherwise
response.raise_for_status() raises HTTPError on a 4xx/5xx status, and the
decoded JSON body is returned. -/
def fetch_home_data (response : Except Unit HttpResponse) :
    Except PyError RawPayload :=
  match response with
  | .error _ => .error .fetchError
  | .ok r => if 400 ≤ r.status_code then .error .fetchError else .ok r.body

/-- HomeDataSvc.save_to_file: a pass statement. -/
def save_to_file (_fetched_data : RawPayload) : Unit := ()

/-- HouseCanaryHomeDataSvc.parse_home_data: home_data['property/details']
['result'] raises KeyError when missing (modelled as schemaDriftError);
result.get('property', \x7b\x7d) and result.get('assessment', \x7b\x7d)
default to empty; property_data.update(property_assessment); then keep only
the keys in fields_to_retrieve. -/
def parse_home_data (home_data : RawPayload) : Except PyError Dict := do
  let pd ← match home_data.propertyDetails with
    | some x => pure x
    | none => .error (.schemaDriftError "property/details")
  let result ← match pd.result with
    | some x => pure x
    | none => .error (.schemaDriftError "result")
  let property_data := result.property.getD []
  let property_assessment := result.assessment.getD []
  let merged := dictUpdate property_data property_assessment
  pure (merged.filter (fun kv => fields_to_retrieve.contains kv.1))

/-- HouseCanaryHomeDataSvc.normalize_home_data: for each parsed field,
HouseCanaryFields[field_name] (KeyError when absent), the enum validator
(ValueError when the value is outside the universe), translation of the
field name through house_canary_field_to_generic (KeyError when absent),
and translation of the value through house_canary_sewer_to_generic.get with
the existence_unknown default. -/
def normalize_home_data (home_data : Dict) : Except PyError Dict :=
  home_data.foldlM (fun acc kv => do
    match houseCanaryFields kv.1 with
    | none => Except.error (.keyError kv.1)
    | some field_validator =>
      if field_validator kv.2 then
        match dlookup house_canary_field_to_generic kv.1 with
        | none => Except.error (.keyError kv.1)
        | some normalized_field_name =>
          let normalized_field_value := (sewerLookup kv.2).getD "existence_unknown"
          pure (dinsert acc normalized_field_name (.s normalized_field_value))
      else Except.error (.valueValidationError kv.2)) ([] : Dict)

/-- HomeDataSvc.has_septic: data[sewer_key] raises KeyError when the sewer
key is absent; otherwise compares against GenericSewerMappings.septic.value. -/
def has_septic (data : Dict) : Except PyError Bool :=
  match dlookup data "sewer" with
  | some v => pure (pyEqStr v "septic")
  | none => .error (.keyError "sewer")

/-- getattr(self, constructed_field): the constructed-field constructor
methods defined on the service; a missing method raises AttributeError
(returned as none). -/
def fieldConstructors (name : String) :
    Option (Dict → Except PyError PyVal) :=
  if name = "has_septic" then some (fun d => (has_septic d).map PyVal.b) else none

/-- HomeDataSvc._build_constructed_fields: for each constructed field,
getattr then call; only AttributeError is caught (continue) — any exception
raised by the constructor itself, such as the KeyError from has_septic,
propagates. -/
def build_constructed_fields (normalized_data : Dict) : Except PyError Dict :=
  constructed_fields.foldlM (fun acc cf =>
    match fieldConstructors cf with
    | none => pure acc
    | some ctor => do
        let v ← ctor acc
        pure (dinsert acc cf v)) normalized_data

/-- The body of HomeDataSvc.build_home_data up to the pruned result, before
self.data is assigned. -/
def build_home_data_result (svc : HomeDataSvc)
    (response : Except Unit HttpResponse) : Except PyError Dict := do
  let fetched_data ← fetch_home_data response
  let _ := save_to_file fetched_data
  let parsed_data ← parse_home_data fetched_data
  let normalized_data ← normalize_home_data parsed_data
  let data_with_constructed_fields ← build_constructed_fields normalized_data
  let pruned_data := data_with_constructed_fields.filter
    (fun kv => svc.expected_fields.contains kv.1)
  pure pruned_data

/-- HomeDataSvc.build_home_data: returns the pruned data and sets it on the
instance; when an exception propagates, self.data was never assigned and the
instance is unchanged. -/
def build_home_data (svc : HomeDataSvc) (response : Except Unit HttpResponse) :
    Except PyError Dict × HomeDataSvc :=
  match build_home_data_result svc response with
  | .ok d => (.ok d, { svc with data := some d })
  | .error e => (.error e, svc)

/-! ### Association-list lemmas (Python dict semantics) -/

@[simp]
theorem dlookup_nil {α : Type} (k : String) :
    dlookup ([] : List (String × α)) k = none := rfl

@[simp]
theorem dlookup_cons {α : Type} (hd : String × α) (t : List (String × α))
    (k : String) :
    dlookup (hd :: t) k = if hd.1 = k then some hd.2 else dlookup t k := rfl

theorem dlookup_append_right {α : Type} (d1 d2 : List (String × α)) (k : String)
    (h : d1.any (fun kv => kv.1 = k) = false) :
    dlookup (d1 ++ d2) k = dlookup d2 k := by
  induction d1 with
  | nil => rfl
  | cons hd t ih =>
    simp only [List.any_cons, Bool.or_eq_false_iff, decide_eq_false_iff_not] at h
    rw [List.cons_append, dlookup_cons, if_neg h.1]
    exact ih h.2

theorem dlookup_map_replace {α : Type} (d : List (String × α)) (k : String) (v : α)
    (h : d.any (fun kv => kv.1 = k) = true) :
    dlookup (d.map (fun kv => if kv.1 = k then (k, v) else kv)) k = some v := by
  induction d with
  | nil => simp at h
  | cons hd t ih =>
    by_cases hk : hd.1 = k
    · rw [List.map_cons, if_pos hk, dlookup_cons, if_pos rfl]
    · simp only [List.any_cons, decide_eq_true_eq, hk, false_or] at h
      rw [List.map_cons, if_neg hk, dlookup_cons, if_neg hk]
      exact ih h

theorem dlookup_map_replace_ne {α : Type} (d : List (String × α)) (k k2 : String)
    (v : α) (h : k2 ≠ k) :
    dlookup (d.map (fun kv => if kv.1 = k2 then (k2, v) else kv)) k = dlookup d k := by
  induction d with
  | nil => rfl
  | cons hd t ih =>
    by_cases hk : hd.1 = k2
    · rw [List.map_cons, if_pos hk, dlookup_cons, dlookup_cons, if_neg h,
        if_neg (fun h2 => h (hk ▸ h2)), ih]
    · rw [List.map_cons, if_neg hk, dlookup_cons, dlookup_cons, ih]

theorem dlookup_dinsert_self {α : Type} (d : List (String × α)) (k : String) (v : α) :
    dlookup (dinsert d k v) k = some v := by
  unfold dinsert
  by_cases h : d.any (fun kv => kv.1 = k) = true
  · rw [if_pos h]
    exact dlookup_map_replace d k v h
  · rw [if_neg h, dlookup_append_right d _ k (Bool.eq_false_iff.mpr h)]
    simp

theorem dlookup_append_single_ne {α : Type} (d : List (String × α))
    (k k2 : String) (v : α) (h : k2 ≠ k) :
    dlookup (d ++ [(k2, v)]) k = dlookup d k := by
  induction d with
  | nil => simp [if_neg h]
  | cons hd t ih =>
    rw [List.cons_append, dlookup_cons, dlookup_cons, ih]

theorem dlookup_dinsert_ne {α : Type} (d : List (String × α)) (k k2 : String)
    (v : α) (h : k2 ≠ k) :
    dlookup (dinsert d k2 v) k = dlookup d k := by
  unfold dinsert
  by_cases hmem : d.any (fun kv => kv.1 = k2) = true
  · rw [if_pos hmem]
    exact dlookup_map_replace_ne d k k2 v h
  · rw [if_neg hmem]
    exact dlookup_append_single_ne d k k2 v h

theorem dlookup_foldl_dinsert_of_not_mem {α : Type} (l : List (String × α))
    (d : List (String × α)) (k : String) (h : ∀ kv ∈ l, kv.1 ≠ k) :
    dlookup (l.foldl (fun acc kv => dinsert acc kv.1 kv.2) d) k = dlookup d k := by
  induction l generalizing d with
  | nil => rfl
  | cons hd t ih =>
    simp only [List.foldl_cons]
    rw [ih _ (fun kv hkv => h kv (List.mem_cons_of_mem hd hkv))]
    exact dlookup_dinsert_ne d k hd.1 hd.2 (h hd (List.mem_cons_self hd t))

theorem dlookup_dictUpdate_right {α : Type} (d1 l : List (String × α))
    (k : String) (v : α) (hnd : (l.map Prod.fst).Nodup)
    (hv : dlookup l k = some v) :
    dlookup (dictUpdate d1 l) k = some v := by
  induction l generalizing d1 with
  | nil => simp [dlookup] at hv
  | cons hd t ih =>
    simp only [List.map_cons, List.nodup_cons] at hnd
    simp only [dictUpdate, List.foldl_cons] at *
    by_cases hk : hd.1 = k
    · rw [dlookup_cons, if_pos hk] at hv
      subst hk
      rw [dlookup_foldl_dinsert_of_not_mem t _ hd.1
        (fun kv hkv heq => hnd.1 (heq ▸ List.mem_map_of_mem Prod.fst hkv))]
      rw [dlookup_dinsert_self]
      exact hv
    · rw [dlookup_cons, if_neg hk] at hv
      exact ih (dinsert d1 hd.1 hd.2) hnd.2 hv

theorem dlookup_filter_key {α : Type} (d : List (String × α)) (p : String → Bool)
    (k : String) (hp : p k = true) :
    dlookup (d.filter (fun kv => p kv.1)) k = dlookup d k := by
  induction d with
  | nil => rfl
  | cons hd t ih =>
    rw [List.filter_cons]
    by_cases hph : p hd.1 = true
    · rw [if_pos hph, dlookup_cons, dlookup_cons, ih]
    · have hk : hd.1 ≠ k := fun h2 => hph (h2 ▸ hp)
      rw [if_neg (by simpa using hph), dlookup_cons, if_neg hk, ih]

/-! ### Computation lemmas for the pipeline stages -/

@[simp]
theorem except_error_bind {α β γ : Type} (e : α) (k : β → Except α γ) :
    (Except.error e : Except α β) >>= k = Except.error e := rfl

@[simp]
theorem except_ok_bind {α β γ : Type} (b : β) (k : β → Except α γ) :
    (Except.ok b : Except α β) >>= k = k b := rfl

@[simp]
theorem except_pure_eq_ok {α β : Type} (b : β) :
    (pure b : Except α β) = Except.ok b := rfl

theorem normalize_cons_invalid (rest : Dict) (v : PyVal)
    (h : validateSewer v = false) :
    normalize_home_data (("sewer", v) :: rest) =
      .error (.valueValidationError v) := by
  simp [normalize_home_data, List.foldlM, houseCanaryFields, h]

theorem normalize_singleton_valid (v : PyVal) (h : validateSewer v = true) :
    normalize_home_data [("sewer", v)] =
      .ok [("sewer", PyVal.s ((sewerLookup v).getD "existence_unknown"))] := by
  simp [normalize_home_data, List.foldlM, houseCanaryFields, h,
    house_canary_field_to_generic, dinsert]

theorem sewer_table_lookup_of_not_mem (v : String)
    (h : v ∉ houseCanarySewerPropertyDetailsValues) :
    dlookup house_canary_sewer_to_generic v = none := by
  simp only [houseCanarySewerPropertyDetailsValues, List.mem_cons,
    List.not_mem_nil, or_false, not_or] at h
  obtain ⟨h1, h2, h3, h4, h5⟩ := h
  simp [house_canary_sewer_to_generic, Ne.symm h1, Ne.symm h2, Ne.symm h3,
    Ne.symm h4, Ne.symm h5]

theorem sewer_table_lookup_of_mem (v : String)
    (hm : v ∈ houseCanarySewerPropertyDetailsValues) :
    ∃ c, dlookup house_canary_sewer_to_generic v = some c := by
  simp only [houseCanarySewerPropertyDetailsValues, List.mem_cons,
    List.not_mem_nil, or_false] at hm
  rcases hm with rfl | rfl | rfl | rfl | rfl <;> exact ⟨_, rfl⟩

theorem sewer_universe_of_lookup_some (v c : String)
    (h : dlookup house_canary_sewer_to_generic v = some c) :
    houseCanarySewerPropertyDetailsValues.contains v = true := by
  by_cases hm : v ∈ houseCanarySewerPropertyDetailsValues
  · exact List.elem_eq_true_of_mem hm
  · rw [sewer_table_lookup_of_not_mem v hm] at h
    cases h

/-! ### Claim theorems -/

/-- C1, counterexample: the claim says an unmapped provider value such as
"Unknown-Provider-Code" normalizes to sewer = "existence_unknown" with no
exception; on the code, normalize_home_data validates the value against the
provider universe first and raises a ValueValidationError, and in particular
does not return the existence_unknown mapping. -/
theorem C1_counterexample_unmapped_value_raises :
    normalize_home_data [("sewer", PyVal.s "Unknown-Provider-Code")] =
      .error (.valueValidationError (PyVal.s "Unknown-Provider-Code")) ∧
    normalize_home_data [("sewer", PyVal.s "Unknown-Provider-Code")] ≠
      .ok [("sewer", PyVal.s "existence_unknown")] := by
  exact ⟨rfl, fun hcontra => Except.noConfusion hcontra⟩

/-- C1, amended: for every provider sewer value with an entry in the
provider-value-to-canonical-value table, normalize_home_data maps it to
exactly the mapped canonical value; for every provider value without a table
entry, normalize_home_data raises a ValueValidationError (the table's domain
coincides with the provider's declared value universe, so the
existence_unknown fallback of the lookup is never reached). -/
theorem C1_amended_normalization_on_table (v : String) :
    (∀ c, dlookup house_canary_sewer_to_generic v = some c →
      normalize_home_data [("sewer", PyVal.s v)] =
        .ok [("sewer", PyVal.s c)]) ∧
    (dlookup house_canary_sewer_to_generic v = none →
      normalize_home_data [("sewer", PyVal.s v)] =
        .error (.valueValidationError (PyVal.s v))) := by
  constructor
  · intro c hc
    have hval : validateSewer (PyVal.s v) = true :=
      sewer_universe_of_lookup_some v c hc
    rw [normalize_singleton_valid _ hval]
    simp [sewerLookup, hc]
  · intro hn
    have hval : validateSewer (PyVal.s v) = false := by
      by_cases hm : v ∈ houseCanarySewerPropertyDetailsValues
      · obtain ⟨c, hc⟩ := sewer_table_lookup_of_mem v hm
        rw [hn] at hc
        cases hc
      · simpa [validateSewer] using hm
    exact normalize_cons_invalid [] _ hval

/-- C1, witness for the amended theorem at the concrete value "Septic". -/
theorem C1_amended_witness :
    dlookup house_canary_sewer_to_generic "Septic" = some "septic" ∧
    normalize_home_data [("sewer", PyVal.s "Septic")] =
      .ok [("sewer", PyVal.s "septic")] :=
  ⟨rfl, (C1_amended_normalization_on_table "Septic").1 "septic" rfl⟩

/-- C2: the claim says a derived field whose dependency is absent from the
normalized mapping is skipped silently; on the code, with the sewer key
absent, has_septic raises a KeyError that _build_constructed_fields does not
catch (it only catches AttributeError), contradicting the code's own comment
that such fields should be skipped. -/
theorem C2_missing_dependency_raises :
    build_constructed_fields [] = .error (.keyError "sewer") := rfl

/-- C3: provider value "Septic" for sewer normalizes to "septic" and derives
has_septic = true; provider value "Yes" normalizes to "type_unknown" and
derives has_septic = false (run end to end through build_home_data with both
fields requested). -/
theorem C3_septic_and_yes_scenarios :
    build_home_data ⟨["sewer", "has_septic"], "addr", "zip", none⟩
        (.ok ⟨200, ⟨some ⟨some ⟨some [("sewer", PyVal.s "Septic")], none⟩⟩⟩⟩) =
      (.ok [("sewer", PyVal.s "septic"), ("has_septic", PyVal.b true)],
        ⟨["sewer", "has_septic"], "addr", "zip",
          some [("sewer", PyVal.s "septic"), ("has_septic", PyVal.b true)]⟩) ∧
    build_home_data ⟨["sewer", "has_septic"], "addr", "zip", none⟩
        (.ok ⟨200, ⟨some ⟨some ⟨some [("sewer", PyVal.s "Yes")], none⟩⟩⟩⟩) =
      (.ok [("sewer", PyVal.s "type_unknown"), ("has_septic", PyVal.b false)],
        ⟨["sewer", "has_septic"], "addr", "zip",
          some [("sewer", PyVal.s "type_unknown"),
            ("has_septic", PyVal.b false)]⟩) :=
  ⟨rfl, rfl⟩

/-- C4: the claim says the result of build_home_data for the empty requested
set is the empty mapping regardless of what the provider returned; on the
code, a well-formed payload that lacks the sewer field makes has_septic raise
an uncaught KeyError, so build_home_data raises instead of returning the
empty mapping. -/
theorem C4_empty_request_raises_on_missing_sewer :
    build_home_data ⟨[], "addr", "zip", none⟩
        (.ok ⟨200, ⟨some ⟨some ⟨some [("year_built", PyVal.s "1990")],
          none⟩⟩⟩⟩) =
      (.error (.keyError "sewer"), ⟨[], "addr", "zip", none⟩) := rfl

/-- C5: during normalization each provider value is checked against the
provider's declared value universe (validateSewer is the
HouseCanarySewerPropertyDetails membership test), and every value outside
that universe makes normalize_home_data fail with a ValueValidationError
that propagates, regardless of the rest of the mapping and independent of
any canonical mapping for the value. -/
theorem C5_out_of_universe_value_fails (rest : Dict) (v : PyVal)
    (h : validateSewer v = false) :
    normalize_home_data (("sewer", v) :: rest) =
      .error (.valueValidationError v) :=
  normalize_cons_invalid rest v h

/-- C5, witness at the concrete out-of-universe value "Garbage". -/
theorem C5_witness :
    validateSewer (PyVal.s "Garbage") = false ∧
    normalize_home_data [("sewer", PyVal.s "Garbage")] =
      .error (.valueValidationError (PyVal.s "Garbage")) :=
  ⟨rfl, C5_out_of_universe_value_fails [] (PyVal.s "Garbage") rfl⟩

/-- C6: parse_home_data fails with a SchemaDriftError exactly when the
structural container is missing (the property/details object or its result
member); for well-formed payloads it never fails and silently drops every
key outside the supported fields. -/
theorem C6_parse_schema_drift (p : RawPayload) :
    (p.propertyDetails = none →
      parse_home_data p = .error (.schemaDriftError "property/details")) ∧
    (∀ w, p.propertyDetails = some w → w.result = none →
      parse_home_data p = .error (.schemaDriftError "result")) ∧
    (∀ w r, p.propertyDetails = some w → w.result = some r →
      ∃ d, parse_home_data p = .ok d ∧
        ∀ kv ∈ d, kv.1 ∈ fields_to_retrieve) := by
  obtain ⟨pd⟩ := p
  refine ⟨?_, ?_, ?_⟩
  · rintro rfl
    rfl
  · rintro ⟨res⟩ rfl hr
    cases hr
    rfl
  · rintro ⟨res⟩ r rfl hr
    cases hr
    refine ⟨_, rfl, fun kv hkv => ?_⟩
    exact List.mem_of_elem_eq_true (List.mem_filter.mp hkv).2

/-- C6, witness: a payload with no property/details member fails with the
SchemaDriftError. -/
theorem C6_witness :
    parse_home_data ⟨none⟩ = .error (.schemaDriftError "property/details") :=
  (C6_parse_schema_drift ⟨none⟩).1 rfl

/-- C7: when the fetch stage fails — a connection error or timeout, or a
non-success HTTP status such as 500 — build_home_data returns that
FetchError unchanged, produces no partial result, and leaves the instance
(including its data attribute) unchanged. -/
theorem C7_fetch_failure_aborts (svc : HomeDataSvc) (r : HttpResponse)
    (h : 400 ≤ r.status_code) :
    build_home_data svc (.ok r) = (.error .fetchError, svc) ∧
    build_home_data svc (.error ()) = (.error .fetchError, svc) := by
  constructor
  · have hres : build_home_data_result svc (.ok r) = .error .fetchError := by
      simp [build_home_data_result, fetch_home_data, h]
    simp [build_home_data, hres]
  · rfl

/-- C7, witness at an HTTP 500 response. -/
theorem C7_witness :
    400 ≤ (500 : Nat) ∧
    build_home_data ⟨[], "addr", "zip", none⟩ (.ok ⟨500, ⟨none⟩⟩) =
      (.error .fetchError, ⟨[], "addr", "zip", none⟩) :=
  ⟨by decide, (C7_fetch_failure_aborts ⟨[], "addr", "zip", none⟩ ⟨500, ⟨none⟩⟩
    (by decide)).1⟩

/-- C8, counterexample: the claim says the parsed mapping only contains
fields whose canonical counterparts are in the caller's requested field set;
parse_home_data does not consult the requested fields at all, so for a
caller requesting the empty set the parsed mapping still contains sewer,
whose canonical counterpart "sewer" is not in the empty requested set. -/
theorem C8_counterexample_parse_ignores_requested :
    parse_home_data ⟨some ⟨some ⟨some [("sewer", PyVal.s "Septic")], none⟩⟩⟩ =
      .ok [("sewer", PyVal.s "Septic")] ∧
    dlookup house_canary_field_to_generic "sewer" = some "sewer" ∧
    "sewer" ∉ ([] : List String) := by
  exact ⟨rfl, rfl, by decide⟩

/-- C8, amended: the parsed mapping contains only provider fields the
adapter declares as supported (fields_to_retrieve); the restriction to the
caller's requested field set happens only later, in the final projection of
build_home_data, not in parse_home_data. -/
theorem C8_amended_parse_restricted_to_supported (p : RawPayload) (d : Dict)
    (h : parse_home_data p = .ok d) :
    ∀ kv ∈ d, kv.1 ∈ fields_to_retrieve := by
  obtain ⟨pd⟩ := p
  cases pd with
  | none => cases h
  | some w =>
    obtain ⟨res⟩ := w
    cases res with
    | none => cases h
    | some r =>
      cases h
      intro kv hkv
      exact List.mem_of_elem_eq_true (List.mem_filter.mp hkv).2

/-- C8, witness for the amended theorem at a concrete payload. -/
theorem C8_amended_witness :
    parse_home_data ⟨some ⟨some ⟨some [("sewer", PyVal.s "Septic"),
        ("year_built", PyVal.s "1990")], none⟩⟩⟩ =
      .ok [("sewer", PyVal.s "Septic")] ∧
    ∀ kv ∈ ([("sewer", PyVal.s "Septic")] : Dict),
      kv.1 ∈ fields_to_retrieve :=
  ⟨rfl, C8_amended_parse_restricted_to_supported
    ⟨some ⟨some ⟨some [("sewer", PyVal.s "Septic"),
      ("year_built", PyVal.s "1990")], none⟩⟩⟩
    [("sewer", PyVal.s "Septic")] rfl⟩

/-- C9: every provider value in the declared value universe (every value
accepted by the HouseCanarySewerPropertyDetails validator) has an entry in
the provider-value-to-canonical-value table, so the existence_unknown
default branch of the lookup in normalize_home_data is never taken for a
value that passes validation. -/
theorem C9_universe_covered_by_table (v : PyVal)
    (h : validateSewer v = true) :
    ∃ c, sewerLookup v = some c := by
  cases v with
  | b bv => cases h
  | s sv =>
    have hm : sv ∈ houseCanarySewerPropertyDetailsValues := by
      simpa [validateSewer] using h
    exact sewer_table_lookup_of_mem sv hm

/-- C9, witness at the concrete universe value "Municipal". -/
theorem C9_witness :
    validateSewer (PyVal.s "Municipal") = true ∧
    ∃ c, sewerLookup (PyVal.s "Municipal") = some c :=
  ⟨rfl, C9_universe_covered_by_table (PyVal.s "Municipal") rfl⟩

/-- C10: when the payload's property object and its assessment object both
define the same supported key, the parsed mapping holds the assessment
object's value (property_data.update(property_assessment) lets the
assessment entry override the property entry). -/
theorem C10_assessment_overrides_property (prop assess : Dict) (k : String)
    (v w : PyVal) (hk : fields_to_retrieve.contains k = true)
    (hnd : (assess.map Prod.fst).Nodup)
    (_hp : dlookup prop k = some w) (ha : dlookup assess k = some v) :
    ∃ d, parse_home_data ⟨some ⟨some ⟨some prop, some assess⟩⟩⟩ = .ok d ∧
      dlookup d k = some v := by
  refine ⟨_, rfl, ?_⟩
  rw [dlookup_filter_key _ _ _ hk]
  exact dlookup_dictUpdate_right prop assess k v hnd ha

/-- C10, witness: property says Municipal, assessment says Septic, the
parsed sewer value is Septic. -/
theorem C10_witness :
    fields_to_retrieve.contains "sewer" = true ∧
    ([("sewer", PyVal.s "Septic")].map (Prod.fst (α := String)
      (β := PyVal))).Nodup ∧
    dlookup [("sewer", PyVal.s "Municipal")] "sewer" =
      some (PyVal.s "Municipal") ∧
    dlookup [("sewer", PyVal.s "Septic")] "sewer" = some (PyVal.s "Septic") ∧
    ∃ d, parse_home_data ⟨some ⟨some ⟨some [("sewer", PyVal.s "Municipal")],
        some [("sewer", PyVal.s "Septic")]⟩⟩⟩ = .ok d ∧
      dlookup d "sewer" = some (PyVal.s "Septic") :=
  ⟨rfl, by decide, rfl, rfl,
    C10_assessment_overrides_property _ _ _ _ _ rfl (by decide) rfl rfl⟩

end SepticApi
